import Mathlib

/-
Verification of the agent-performance metrics and risk-scoring pipeline.

The pipeline is embedded shallowly: tabular rows become a `Row` structure over
rationals, the pandas filters become list filters, `pd.cut` binning becomes an
explicit `Option`-valued classifier with the library's right-closed interval
semantics, and the guarded divisions (`np.where(den > 0, num / den * 100, 0)`)
become `guardedRate`.
-/

namespace AgentSummary

/-- Quality tiers produced by binning the preferred percentage. -/
inductive QualityTier where
  | Poor
  | Average
  | Good
  | Excellent
deriving DecidableEq, Repr

/-- Risk profiles produced by binning the GI percentage. -/
inductive RiskProfile where
  | LowRisk
  | MediumRisk
  | HighRisk
deriving DecidableEq, Repr

/-- Severity levels returned by the risk scorer. -/
inductive Severity where
  | Low
  | Medium
  | High
deriving DecidableEq, Repr

/-- One tag per rule of the risk scorer; the scorer appends one issue
message per firing rule, modelled here by its tag. -/
inductive RiskIssue where
  | lowConversion
  | highFreeLook
  | elevatedFreeLook
  | highGI
  | lowPreferred
  | highRiskMix
  | lowProductivity
  | poorQuality
deriving DecidableEq, Repr

/-- One row of the uploaded table after numeric coercion: agent name, week
label (the reserved label "Total" marks a period-total row) and the ten
numeric columns. -/
structure Row where
  agent : String
  week : String
  firstQuotes : ℚ
  secondQuotes : ℚ
  submitted : ℚ
  freeLook : ℚ
  smokerPct : ℚ
  preferredPct : ℚ
  standardPct : ℚ
  gradedPct : ℚ
  giPct : ℚ
  ccPct : ℚ
deriving DecidableEq, Repr

/-- Binning of the preferred percentage by pandas cut with edges
[0, 20, 30, 40, 100]: right-closed bins (0,20], (20,30], (30,40], (40,100];
values outside all bins (including 0 itself) get no label. -/
def qualityTierOf (p : ℚ) : Option QualityTier :=
  if 0 < p ∧ p ≤ 20 then some QualityTier.Poor
  else if 20 < p ∧ p ≤ 30 then some QualityTier.Average
  else if 30 < p ∧ p ≤ 40 then some QualityTier.Good
  else if 40 < p ∧ p ≤ 100 then some QualityTier.Excellent
  else none

/-- Binning of the GI percentage by pandas cut with edges [0, 20, 35, 100]:
right-closed bins (0,20], (20,35], (35,100]. -/
def riskProfileOf (g : ℚ) : Option RiskProfile :=
  if 0 < g ∧ g ≤ 20 then some RiskProfile.LowRisk
  else if 20 < g ∧ g ≤ 35 then some RiskProfile.MediumRisk
  else if 35 < g ∧ g ≤ 100 then some RiskProfile.HighRisk
  else none

/-- The spec's reading of the quality bins: left-inclusive half-open bins
[0,20), [20,30), [30,40), [40,100]. Written from the spec's words, for
comparison with `qualityTierOf` which is written from the code. -/
def specQualityTierOf (p : ℚ) : Option QualityTier :=
  if 0 ≤ p ∧ p < 20 then some QualityTier.Poor
  else if 20 ≤ p ∧ p < 30 then some QualityTier.Average
  else if 30 ≤ p ∧ p < 40 then some QualityTier.Good
  else if 40 ≤ p ∧ p ≤ 100 then some QualityTier.Excellent
  else none

/-- Guarded percentage ratio: `np.where(den > 0, num / den * 100, 0)`. -/
def guardedRate (num den : ℚ) : ℚ :=
  if 0 < den then num / den * 100 else 0

/-- Quality score: `(preferred * 1.5 + standard * 1.0) / 2.5`. -/
def qualityScoreOf (preferred standard : ℚ) : ℚ :=
  (preferred * (3 / 2) + standard * 1) / (5 / 2)

/-- Rows of individual weeks: week label different from the reserved
total marker. -/
def individualOf (df : List Row) : List Row :=
  df.filter (fun r => r.week ≠ "Total")

/-- Rows of period totals: week label equal to the reserved total marker. -/
def totalOf (df : List Row) : List Row :=
  df.filter (fun r => r.week = "Total")

/-- Number of distinct week labels among an agent's individual rows
(`individual_data.groupby('Agent')['Week'].nunique()`); an agent with no
individual rows gets 0. -/
def weeksActiveOf (ind : List Row) (a : String) : ℕ :=
  (((ind.filter (fun r => r.agent = a)).map (fun r => r.week)).dedup).length

/-- Qualification with explicit thresholds: keep totals rows meeting the
first-quote and submission minima, then keep those whose agent has at least
`minWeeks` active weeks. -/
def qualifiedRowsWith (minQuotes minSub : ℚ) (minWeeks : ℕ) (df : List Row) :
    List Row :=
  ((totalOf df).filter
      (fun r => minQuotes ≤ r.firstQuotes ∧ minSub ≤ r.submitted)).filter
    (fun r => minWeeks ≤ weeksActiveOf (individualOf df) r.agent)

/-- Qualification at the code's constants MIN_TOTAL_QUOTES = 50,
MIN_SUBMISSIONS = 10, MIN_WEEKS_ACTIVE = 2. -/
def qualifiedRows (df : List Row) : List Row :=
  qualifiedRowsWith 50 10 2 df

/-- A full-period agent record: the totals row extended with the derived
metrics of the metrics engine and the two classifier labels. -/
structure FullRecord where
  agent : String
  firstQuotes : ℚ
  secondQuotes : ℚ
  submitted : ℚ
  freeLook : ℚ
  smokerPct : ℚ
  preferredPct : ℚ
  standardPct : ℚ
  gradedPct : ℚ
  giPct : ℚ
  ccPct : ℚ
  conversionRate : ℚ
  quoteProgressionRate : ℚ
  overallConversionRate : ℚ
  freeLookRate : ℚ
  qualityScore : ℚ
  weeksActive : ℕ
  avgWeeklySubmissions : ℚ
  qualityTier : Option QualityTier
  riskProfile : Option RiskProfile
deriving DecidableEq, Repr

/-- Derivation of the full-period record from a totals row and the agent's
active-week count, exactly as `process_agent_data` computes columns:
guarded rates, quality score, average weekly submissions (unguarded
division by the active-week count), and the two binned labels. -/
def mkFullRecord (r : Row) (w : ℕ) : FullRecord where
  agent := r.agent
  firstQuotes := r.firstQuotes
  secondQuotes := r.secondQuotes
  submitted := r.submitted
  freeLook := r.freeLook
  smokerPct := r.smokerPct
  preferredPct := r.preferredPct
  standardPct := r.standardPct
  gradedPct := r.gradedPct
  giPct := r.giPct
  ccPct := r.ccPct
  conversionRate := guardedRate r.submitted r.secondQuotes
  quoteProgressionRate := guardedRate r.secondQuotes r.firstQuotes
  overallConversionRate := guardedRate r.submitted r.firstQuotes
  freeLookRate := guardedRate r.freeLook r.submitted
  qualityScore := qualityScoreOf r.preferredPct r.standardPct
  weeksActive := w
  avgWeeklySubmissions := r.submitted / (w : ℚ)
  qualityTier := qualityTierOf r.preferredPct
  riskProfile := riskProfileOf r.giPct

/-- The full-period pipeline `process_agent_data`: split, qualify, derive. -/
def processAgentData (df : List Row) : List FullRecord :=
  (qualifiedRows df).map
    (fun r => mkFullRecord r (weeksActiveOf (individualOf df) r.agent))

/-- The fields of an agent record that `calculate_risk_score` reads. -/
structure AgentRow where
  conversionRate : ℚ
  freeLookRate : ℚ
  giPct : ℚ
  preferredPct : ℚ
  gradedPct : ℚ
  avgWeeklySubmissions : ℚ
  qualityScore : ℚ
deriving DecidableEq, Repr

/-- Projection of a full-period record onto the columns the risk scorer
reads. -/
def FullRecord.toAgentRow (fr : FullRecord) : AgentRow where
  conversionRate := fr.conversionRate
  freeLookRate := fr.freeLookRate
  giPct := fr.giPct
  preferredPct := fr.preferredPct
  gradedPct := fr.gradedPct
  avgWeeklySubmissions := fr.avgWeeklySubmissions
  qualityScore := fr.qualityScore

/-- Severity of a final risk score:
`'High' if score >= 6 else 'Medium' if score >= 4 else 'Low'`. -/
def severityOf (s : ℕ) : Severity :=
  if 6 ≤ s then Severity.High
  else if 4 ≤ s then Severity.Medium
  else Severity.Low

/-- `calculate_risk_score`: sequential rule accumulation exactly as in the
source. Each rule adds its delta to the score and appends one issue under
one condition (the free-look rules form an if/elif chain, all others are
independent ifs); the severity comes from the final score. -/
def calculateRiskScore (r : AgentRow) : ℕ × Severity × List RiskIssue :=
  let s1 : ℕ := if r.conversionRate < 20 then 3 else 0
  let i1 : List RiskIssue :=
    if r.conversionRate < 20 then [RiskIssue.lowConversion] else []
  let s2 : ℕ :=
    if r.freeLookRate > 15 then 3 else if r.freeLookRate > 10 then 1 else 0
  let i2 : List RiskIssue :=
    if r.freeLookRate > 15 then [RiskIssue.highFreeLook]
    else if r.freeLookRate > 10 then [RiskIssue.elevatedFreeLook] else []
  let s3 : ℕ := if r.giPct > 40 then 2 else 0
  let i3 : List RiskIssue := if r.giPct > 40 then [RiskIssue.highGI] else []
  let s4 : ℕ := if r.preferredPct < 20 then 2 else 0
  let i4 : List RiskIssue :=
    if r.preferredPct < 20 then [RiskIssue.lowPreferred] else []
  let s5 : ℕ := if r.giPct + r.gradedPct > 60 then 2 else 0
  let i5 : List RiskIssue :=
    if r.giPct + r.gradedPct > 60 then [RiskIssue.highRiskMix] else []
  let s6 : ℕ := if r.avgWeeklySubmissions < 5 then 1 else 0
  let i6 : List RiskIssue :=
    if r.avgWeeklySubmissions < 5 then [RiskIssue.lowProductivity] else []
  let s7 : ℕ := if r.qualityScore < 50 then 2 else 0
  let i7 : List RiskIssue :=
    if r.qualityScore < 50 then [RiskIssue.poorQuality] else []
  let score := s1 + s2 + s3 + s4 + s5 + s6 + s7
  let issues := i1 ++ i2 ++ i3 ++ i4 ++ i5 ++ i6 ++ i7
  (score, severityOf score, issues)

/-- Score delta of each rule, from the rule table of the scorer. -/
def ruleDelta : RiskIssue → ℕ
  | RiskIssue.lowConversion => 3
  | RiskIssue.highFreeLook => 3
  | RiskIssue.elevatedFreeLook => 1
  | RiskIssue.highGI => 2
  | RiskIssue.lowPreferred => 2
  | RiskIssue.highRiskMix => 2
  | RiskIssue.lowProductivity => 1
  | RiskIssue.poorQuality => 2

/-- Firing condition of each rule; the elevated free-look band is
10 < rate ≤ 15, the complement of the high band within rate > 10. -/
def ruleFires (r : AgentRow) : RiskIssue → Bool
  | RiskIssue.lowConversion => decide (r.conversionRate < 20)
  | RiskIssue.highFreeLook => decide (r.freeLookRate > 15)
  | RiskIssue.elevatedFreeLook =>
      !(decide (r.freeLookRate > 15)) && decide (r.freeLookRate > 10)
  | RiskIssue.highGI => decide (r.giPct > 40)
  | RiskIssue.lowPreferred => decide (r.preferredPct < 20)
  | RiskIssue.highRiskMix => decide (r.giPct + r.gradedPct > 60)
  | RiskIssue.lowProductivity => decide (r.avgWeeklySubmissions < 5)
  | RiskIssue.poorQuality => decide (r.qualityScore < 50)

/-- The complete rule table, in the order the scorer evaluates it. -/
def allRiskIssues : List RiskIssue :=
  [RiskIssue.lowConversion, RiskIssue.highFreeLook, RiskIssue.elevatedFreeLook,
   RiskIssue.highGI, RiskIssue.lowPreferred, RiskIssue.highRiskMix,
   RiskIssue.lowProductivity, RiskIssue.poorQuality]

/-- Submission-weighted average of a field over a group of rows
(`np.average(x, weights=submitted) if submitted.sum() > 0 else 0`). -/
def wavgBy (rows : List Row) (f : Row → ℚ) : ℚ :=
  let tw := (rows.map (fun r => r.submitted)).sum
  if 0 < tw then (rows.map (fun r => r.submitted * f r)).sum / tw else 0

/-- A record of the range re-aggregator: the columns `agent_totals` carries
after the date-filter branch of `main`. It has no risk profile, no
quote-progression rate and no overall conversion rate. -/
structure ReaggRecord where
  agent : String
  firstQuotes : ℚ
  secondQuotes : ℚ
  submitted : ℚ
  freeLook : ℚ
  smokerPct : ℚ
  preferredPct : ℚ
  standardPct : ℚ
  gradedPct : ℚ
  giPct : ℚ
  ccPct : ℚ
  conversionRate : ℚ
  freeLookRate : ℚ
  qualityScore : ℚ
  weeksActive : ℕ
  avgWeeklySubmissions : ℚ
  qualityTier : Option QualityTier
deriving DecidableEq, Repr

/-- The re-aggregated record of one agent over the filtered weekly rows:
counts are summed, percentages are submission-weighted averages, and the
derived metrics repeat the metrics-engine formulas on the new totals. -/
def reaggRecordOf (filtered : List Row) (a : String) : ReaggRecord :=
  let rows := filtered.filter (fun r => r.agent = a)
  let sub := (rows.map (fun r => r.submitted)).sum
  let w := ((rows.map (fun r => r.week)).dedup).length
  let pref := wavgBy rows (fun r => r.preferredPct)
  let std := wavgBy rows (fun r => r.standardPct)
  { agent := a
    firstQuotes := (rows.map (fun r => r.firstQuotes)).sum
    secondQuotes := (rows.map (fun r => r.secondQuotes)).sum
    submitted := sub
    freeLook := (rows.map (fun r => r.freeLook)).sum
    smokerPct := wavgBy rows (fun r => r.smokerPct)
    preferredPct := pref
    standardPct := std
    gradedPct := wavgBy rows (fun r => r.gradedPct)
    giPct := wavgBy rows (fun r => r.giPct)
    ccPct := wavgBy rows (fun r => r.ccPct)
    conversionRate := guardedRate sub ((rows.map (fun r => r.secondQuotes)).sum)
    freeLookRate := guardedRate ((rows.map (fun r => r.freeLook)).sum) sub
    qualityScore := qualityScoreOf pref std
    weeksActive := w
    avgWeeklySubmissions := sub / (w : ℚ)
    qualityTier := qualityTierOf pref }

/-- Distinct week labels of the individual rows (`available_weeks`). -/
def totalWeeksOf (ind : List Row) : ℕ :=
  ((ind.map (fun r => r.week)).dedup).length

/-- Distinct week labels among the rows kept by the range filter. -/
def weeksInRangeOf (ind : List Row) (sel : List String) : ℕ :=
  (((ind.filter (fun r => r.week ∈ sel)).map (fun r => r.week)).dedup).length

/-- Requalification threshold of the range branch:
`max(5, 10 * len(filtered weeks) // len(available_weeks))`, with Python
floor division. -/
def minSubFiltered (ind : List Row) (sel : List String) : ℕ :=
  max 5 (10 * weeksInRangeOf ind sel / totalWeeksOf ind)

/-- The range re-aggregator: restrict the individual rows to the selected
weeks, build one re-aggregated record per agent present, and keep records
meeting the scaled submission threshold with at least one active week. -/
def reaggregate (ind : List Row) (sel : List String) : List ReaggRecord :=
  let filtered := ind.filter (fun r => r.week ∈ sel)
  let agentsL := (filtered.map (fun r => r.agent)).dedup
  (agentsL.map (reaggRecordOf filtered)).filter
    (fun r => (minSubFiltered ind sel : ℚ) ≤ r.submitted ∧ 1 ≤ r.weeksActive)

section RiskScorerLemmas

lemma severityOf_spec (s : ℕ) :
    (severityOf s = Severity.High ↔ 6 ≤ s) ∧
    (severityOf s = Severity.Medium ↔ 4 ≤ s ∧ s < 6) ∧
    (severityOf s = Severity.Low ↔ s < 4) := by
  unfold severityOf
  split_ifs <;> simp_all <;> omega

set_option maxHeartbeats 2000000 in
lemma riskScore_eq_sum (r : AgentRow) :
    (calculateRiskScore r).1 =
      ((allRiskIssues.filter (ruleFires r)).map ruleDelta).sum := by
  by_cases hf15 : r.freeLookRate > 15 <;> by_cases hf10 : r.freeLookRate > 10 <;>
    simp only [calculateRiskScore, allRiskIssues, ruleFires, ruleDelta,
      List.filter_cons, List.filter_nil, decide_eq_true_eq, Bool.and_eq_true,
      Bool.not_eq_true', decide_eq_false_iff_not, hf15, hf10, not_true,
      not_false_iff, and_true, true_and, and_false, false_and, if_true,
      if_false] <;>
    split_ifs <;> simp [ruleDelta]

set_option maxHeartbeats 2000000 in
lemma riskIssues_eq_filter (r : AgentRow) :
    (calculateRiskScore r).2.2 = allRiskIssues.filter (ruleFires r) := by
  by_cases hf15 : r.freeLookRate > 15 <;> by_cases hf10 : r.freeLookRate > 10 <;>
    simp only [calculateRiskScore, allRiskIssues, ruleFires, ruleDelta,
      List.filter_cons, List.filter_nil, decide_eq_true_eq, Bool.and_eq_true,
      Bool.not_eq_true', decide_eq_false_iff_not, hf15, hf10, not_true,
      not_false_iff, and_true, true_and, and_false, false_and, if_true,
      if_false] <;>
    split_ifs <;> simp

lemma freeLook_bands_exclusive (r : AgentRow) :
    ruleFires r RiskIssue.highFreeLook = false ∨
      ruleFires r RiskIssue.elevatedFreeLook = false := by
  by_cases h : r.freeLookRate > 15
  · right; simp [ruleFires, h]
  · left; simp [ruleFires, h]

lemma elevated_band_iff (r : AgentRow) :
    ruleFires r RiskIssue.elevatedFreeLook = true ↔
      10 < r.freeLookRate ∧ r.freeLookRate ≤ 15 := by
  simp only [ruleFires, Bool.and_eq_true, Bool.not_eq_true',
    decide_eq_false_iff_not, decide_eq_true_eq]
  constructor
  · rintro ⟨a, b⟩; exact ⟨b, not_lt.mp a⟩
  · rintro ⟨a, b⟩; exact ⟨not_lt.mpr b, a⟩

end RiskScorerLemmas

/-- C2: for every agent record the risk score is the sum of the deltas of the
firing rules of the complete rule table, one issue is collected per firing
rule (the issue list is exactly the firing sublist of the table, so the
free-look bands are mutually exclusive and the elevated band is
10 < rate ≤ 15), and severity is High iff score ≥ 6, Medium iff
4 ≤ score < 6, Low iff score < 4. -/
theorem c2_risk_rules (r : AgentRow) :
    (calculateRiskScore r).1 =
        ((allRiskIssues.filter (ruleFires r)).map ruleDelta).sum ∧
    (calculateRiskScore r).2.2 = allRiskIssues.filter (ruleFires r) ∧
    (ruleFires r RiskIssue.highFreeLook = false ∨
        ruleFires r RiskIssue.elevatedFreeLook = false) ∧
    (ruleFires r RiskIssue.elevatedFreeLook = true ↔
        10 < r.freeLookRate ∧ r.freeLookRate ≤ 15) ∧
    ((calculateRiskScore r).2.1 = Severity.High ↔
        6 ≤ (calculateRiskScore r).1) ∧
    ((calculateRiskScore r).2.1 = Severity.Medium ↔
        4 ≤ (calculateRiskScore r).1 ∧ (calculateRiskScore r).1 < 6) ∧
    ((calculateRiskScore r).2.1 = Severity.Low ↔ (calculateRiskScore r).1 < 4) := by
  have hsev := severityOf_spec ((calculateRiskScore r).1)
  exact ⟨riskScore_eq_sum r, riskIssues_eq_filter r, freeLook_bands_exclusive r,
    elevated_band_iff r, hsev.1, hsev.2.1, hsev.2.2⟩

/-- C10: the risk score always lies between 0 and 15 (it is a natural
number, so the lower bound is inherent), and it is 0 exactly when the
issue list is empty. -/
theorem c10_score_bounds (r : AgentRow) :
    (calculateRiskScore r).1 ≤ 15 ∧
    ((calculateRiskScore r).1 = 0 ↔ (calculateRiskScore r).2.2 = []) := by
  simp only [calculateRiskScore]
  split_ifs <;> simp_all

section BinLemmas

lemma qualityTierOf_poor_iff (x : ℚ) :
    qualityTierOf x = some QualityTier.Poor ↔ 0 < x ∧ x ≤ 20 := by
  unfold qualityTierOf
  split_ifs with h1 h2 h3 h4 <;> constructor <;> intro hc
  · exact h1
  · rfl
  · simp at hc
  · exfalso; linarith [h2.1, h2.2, hc.1, hc.2]
  · simp at hc
  · exfalso; linarith [h3.1, h3.2, hc.1, hc.2]
  · simp at hc
  · exfalso; linarith [h4.1, h4.2, hc.1, hc.2]
  · simp at hc
  · exact absurd hc h1

lemma qualityTierOf_average_iff (x : ℚ) :
    qualityTierOf x = some QualityTier.Average ↔ 20 < x ∧ x ≤ 30 := by
  unfold qualityTierOf
  split_ifs with h1 h2 h3 h4 <;> constructor <;> intro hc
  · simp at hc
  · exfalso; linarith [h1.1, h1.2, hc.1, hc.2]
  · exact h2
  · rfl
  · simp at hc
  · exfalso; linarith [h3.1, h3.2, hc.1, hc.2]
  · simp at hc
  · exfalso; linarith [h4.1, h4.2, hc.1, hc.2]
  · simp at hc
  · exact absurd hc h2

lemma qualityTierOf_good_iff (x : ℚ) :
    qualityTierOf x = some QualityTier.Good ↔ 30 < x ∧ x ≤ 40 := by
  unfold qualityTierOf
  split_ifs with h1 h2 h3 h4 <;> constructor <;> intro hc
  · simp at hc
  · exfalso; linarith [h1.1, h1.2, hc.1, hc.2]
  · simp at hc
  · exfalso; linarith [h2.1, h2.2, hc.1, hc.2]
  · exact h3
  · rfl
  · simp at hc
  · exfalso; linarith [h4.1, h4.2, hc.1, hc.2]
  · simp at hc
  · exact absurd hc h3

lemma qualityTierOf_excellent_iff (x : ℚ) :
    qualityTierOf x = some QualityTier.Excellent ↔ 40 < x ∧ x ≤ 100 := by
  unfold qualityTierOf
  split_ifs with h1 h2 h3 h4 <;> constructor <;> intro hc
  · simp at hc
  · exfalso; linarith [h1.1, h1.2, hc.1, hc.2]
  · simp at hc
  · exfalso; linarith [h2.1, h2.2, hc.1, hc.2]
  · simp at hc
  · exfalso; linarith [h3.1, h3.2, hc.1, hc.2]
  · exact h4
  · rfl
  · simp at hc
  · exact absurd hc h4

lemma qualityTierOf_none_iff (x : ℚ) :
    qualityTierOf x = none ↔ x ≤ 0 ∨ 100 < x := by
  unfold qualityTierOf
  split_ifs with h1 h2 h3 h4 <;> constructor <;> intro hc
  · simp at hc
  · exfalso; rcases hc with hc | hc <;> linarith [h1.1, h1.2]
  · simp at hc
  · exfalso; rcases hc with hc | hc <;> linarith [h2.1, h2.2]
  · simp at hc
  · exfalso; rcases hc with hc | hc <;> linarith [h3.1, h3.2]
  · simp at hc
  · exfalso; rcases hc with hc | hc <;> linarith [h4.1, h4.2]
  · push_neg at h1 h2 h3 h4
    rcases le_or_lt x 0 with h | h
    · exact Or.inl h
    · exact Or.inr (h4 (h3 (h2 (h1 h))))
  · rfl

lemma riskProfileOf_low_iff (x : ℚ) :
    riskProfileOf x = some RiskProfile.LowRisk ↔ 0 < x ∧ x ≤ 20 := by
  unfold riskProfileOf
  split_ifs with h1 h2 h3 <;> constructor <;> intro hc
  · exact h1
  · rfl
  · simp at hc
  · exfalso; linarith [h2.1, h2.2, hc.1, hc.2]
  · simp at hc
  · exfalso; linarith [h3.1, h3.2, hc.1, hc.2]
  · simp at hc
  · exact absurd hc h1

lemma riskProfileOf_medium_iff (x : ℚ) :
    riskProfileOf x = some RiskProfile.MediumRisk ↔ 20 < x ∧ x ≤ 35 := by
  unfold riskProfileOf
  split_ifs with h1 h2 h3 <;> constructor <;> intro hc
  · simp at hc
  · exfalso; linarith [h1.1, h1.2, hc.1, hc.2]
  · exact h2
  · rfl
  · simp at hc
  · exfalso; linarith [h3.1, h3.2, hc.1, hc.2]
  · simp at hc
  · exact absurd hc h2

lemma riskProfileOf_high_iff (x : ℚ) :
    riskProfileOf x = some RiskProfile.HighRisk ↔ 35 < x ∧ x ≤ 100 := by
  unfold riskProfileOf
  split_ifs with h1 h2 h3 <;> constructor <;> intro hc
  · simp at hc
  · exfalso; linarith [h1.1, h1.2, hc.1, hc.2]
  · simp at hc
  · exfalso; linarith [h2.1, h2.2, hc.1, hc.2]
  · exact h3
  · rfl
  · simp at hc
  · exact absurd hc h3

lemma riskProfileOf_none_iff (x : ℚ) :
    riskProfileOf x = none ↔ x ≤ 0 ∨ 100 < x := by
  unfold riskProfileOf
  split_ifs with h1 h2 h3 <;> constructor <;> intro hc
  · simp at hc
  · exfalso; rcases hc with hc | hc <;> linarith [h1.1, h1.2]
  · simp at hc
  · exfalso; rcases hc with hc | hc <;> linarith [h2.1, h2.2]
  · simp at hc
  · exfalso; rcases hc with hc | hc <;> linarith [h3.1, h3.2]
  · push_neg at h1 h2 h3
    rcases le_or_lt x 0 with h | h
    · exact Or.inl h
    · exact Or.inr (h3 (h2 (h1 h)))
  · rfl

end BinLemmas

/-- C1 (counterexample): the claimed left-inclusive binning disagrees with
the code at 20 — pandas cut assigns 20 to the Poor bin (0,20] while the
spec's left-inclusive bins place it in Average — and at 0, which receives
no label from the code at all, refuting that every value of [0,100] gets
exactly one label. -/
theorem c1_counterexample :
    qualityTierOf 20 = some QualityTier.Poor ∧
    specQualityTierOf 20 = some QualityTier.Average ∧
    qualityTierOf 20 ≠ specQualityTierOf 20 ∧
    qualityTierOf 0 = none ∧
    riskProfileOf 0 = none := by
  refine ⟨by decide, by decide, ?_, by decide, by decide⟩
  have h1 : qualityTierOf 20 = some QualityTier.Poor := by decide
  have h2 : specQualityTierOf 20 = some QualityTier.Average := by decide
  rw [h1, h2]
  decide

/-- C1 (amended): the tier and profile bins of the code are right-inclusive
and left-exclusive — quality (0,20]→Poor, (20,30]→Average, (30,40]→Good,
(40,100]→Excellent; risk (0,20]→Low, (20,35]→Medium, (35,100]→High — so
every value in (0,100] receives exactly one label of each classification,
while 0 and values outside (0,100] receive none. -/
theorem c1_bins (x : ℚ) :
    (qualityTierOf x = some QualityTier.Poor ↔ 0 < x ∧ x ≤ 20) ∧
    (qualityTierOf x = some QualityTier.Average ↔ 20 < x ∧ x ≤ 30) ∧
    (qualityTierOf x = some QualityTier.Good ↔ 30 < x ∧ x ≤ 40) ∧
    (qualityTierOf x = some QualityTier.Excellent ↔ 40 < x ∧ x ≤ 100) ∧
    (qualityTierOf x = none ↔ x ≤ 0 ∨ 100 < x) ∧
    (riskProfileOf x = some RiskProfile.LowRisk ↔ 0 < x ∧ x ≤ 20) ∧
    (riskProfileOf x = some RiskProfile.MediumRisk ↔ 20 < x ∧ x ≤ 35) ∧
    (riskProfileOf x = some RiskProfile.HighRisk ↔ 35 < x ∧ x ≤ 100) ∧
    (riskProfileOf x = none ↔ x ≤ 0 ∨ 100 < x) :=
  ⟨qualityTierOf_poor_iff x, qualityTierOf_average_iff x,
    qualityTierOf_good_iff x, qualityTierOf_excellent_iff x,
    qualityTierOf_none_iff x, riskProfileOf_low_iff x,
    riskProfileOf_medium_iff x, riskProfileOf_high_iff x,
    riskProfileOf_none_iff x⟩

section DemoTables

/-- A totals row of an agent that meets every qualification threshold. -/
def qRowT : Row :=
  { agent := "Q", week := "Total", firstQuotes := 60, secondQuotes := 30,
    submitted := 20, freeLook := 2, smokerPct := 5, preferredPct := 40,
    standardPct := 30, gradedPct := 10, giPct := 10, ccPct := 5 }

/-- A weekly row of the qualifying agent. -/
def qRowW (wk : String) : Row :=
  { agent := "Q", week := wk, firstQuotes := 30, secondQuotes := 15,
    submitted := 10, freeLook := 1, smokerPct := 5, preferredPct := 40,
    standardPct := 30, gradedPct := 10, giPct := 10, ccPct := 5 }

/-- A small table with one qualifying agent active in two weeks. -/
def qDemo : List Row := [qRowT, qRowW "W1", qRowW "W2"]

/-- A totals row below the first-quote threshold (40 < 50). -/
def rT6 : Row :=
  { agent := "A", week := "Total", firstQuotes := 40, secondQuotes := 20,
    submitted := 10, freeLook := 1, smokerPct := 0, preferredPct := 30,
    standardPct := 30, gradedPct := 0, giPct := 10, ccPct := 0 }

/-- The single weekly row of the same agent. -/
def rW6 : Row :=
  { agent := "A", week := "W1", firstQuotes := 40, secondQuotes := 20,
    submitted := 10, freeLook := 1, smokerPct := 0, preferredPct := 30,
    standardPct := 30, gradedPct := 0, giPct := 10, ccPct := 0 }

end DemoTables

/-- C3: a totals row survives qualification exactly when its first-quote
count is at least 50, its submitted count at least 10, and its agent has at
least 2 distinct weeks among the individual rows; an agent with no
individual rows has 0 active weeks; a row with 40 first quotes is always
excluded. -/
theorem c3_qualification (df : List Row) (r : Row) (a : String) :
    (r ∈ qualifiedRows df ↔
      r ∈ df ∧ r.week = "Total" ∧ 50 ≤ r.firstQuotes ∧ 10 ≤ r.submitted ∧
        2 ≤ weeksActiveOf (individualOf df) r.agent) ∧
    ((individualOf df).filter (fun q => q.agent = a) = [] →
      weeksActiveOf (individualOf df) a = 0) ∧
    (r.firstQuotes = 40 → r ∉ qualifiedRows df) := by
  have hmemiff : r ∈ qualifiedRows df ↔
      r ∈ df ∧ r.week = "Total" ∧ 50 ≤ r.firstQuotes ∧ 10 ≤ r.submitted ∧
        2 ≤ weeksActiveOf (individualOf df) r.agent := by
    simp only [qualifiedRows, qualifiedRowsWith, totalOf, List.mem_filter,
      decide_eq_true_eq]
    tauto
  refine ⟨hmemiff, ?_, ?_⟩
  · intro h
    simp [weeksActiveOf, h]
  · intro h40 hmem
    have h := (hmemiff.mp hmem).2.2.1
    rw [h40] at h
    norm_num at h

/-- C3 (witness): on the concrete tables, the qualifying row is kept, an
agent without individual rows counts 0 weeks, and the 40-first-quote row
is excluded. -/
theorem c3_qualification_witness :
    qRowT ∈ qualifiedRows qDemo ∧
    weeksActiveOf (individualOf qDemo) "ghost" = 0 ∧
    rT6 ∉ qualifiedRows [rT6, rW6] := by
  refine ⟨?_, ?_, ?_⟩
  · exact (c3_qualification qDemo qRowT "x").1.mpr
      ⟨by decide, by decide, by decide, by decide, by decide⟩
  · exact (c3_qualification qDemo qRowT "ghost").2.1 (by decide)
  · exact (c3_qualification [rT6, rW6] rT6 "x").2.2 (by decide)

/-- C8: raising the minimum-submission threshold shrinks the qualified set
(pointwise subset) and never increases the qualified-agent count. -/
theorem c8_monotone (df : List Row) (m1 m2 : ℚ) (h : m1 ≤ m2) :
    qualifiedRowsWith 50 m2 2 df ⊆ qualifiedRowsWith 50 m1 2 df ∧
    (qualifiedRowsWith 50 m2 2 df).length ≤
      (qualifiedRowsWith 50 m1 2 df).length := by
  have hsub : List.Sublist (qualifiedRowsWith 50 m2 2 df)
      (qualifiedRowsWith 50 m1 2 df) := by
    unfold qualifiedRowsWith
    refine List.Sublist.filter _ ?_
    refine List.monotone_filter_right _ ?_
    intro r hr
    simp only [decide_eq_true_eq] at hr ⊢
    exact ⟨hr.1, le_trans h hr.2⟩
  exact ⟨hsub.subset, hsub.length_le⟩

/-- C8 (witness): on the concrete table, moving the threshold from 10 up to
12 does not increase the qualified count. -/
theorem c8_monotone_witness :
    (qualifiedRowsWith 50 12 2 qDemo).length ≤
      (qualifiedRowsWith 50 10 2 qDemo).length :=
  (c8_monotone qDemo 10 12 (by norm_num)).2

lemma guardedRate_nonneg (num den : ℚ) (h : 0 ≤ num) :
    0 ≤ guardedRate num den := by
  unfold guardedRate
  split_ifs with hd
  · exact mul_nonneg (div_nonneg h (le_of_lt hd)) (by norm_num)
  · exact le_refl 0

lemma mem_processAgentData (df : List Row) (fr : FullRecord) :
    fr ∈ processAgentData df ↔ ∃ r ∈ qualifiedRows df,
      fr = mkFullRecord r (weeksActiveOf (individualOf df) r.agent) := by
  simp only [processAgentData, List.mem_map]
  constructor
  · rintro ⟨r, hr, rfl⟩; exact ⟨r, hr, rfl⟩
  · rintro ⟨r, hr, rfl⟩; exact ⟨r, hr, rfl⟩

/-- A totals row that passes qualification but carries a negative free-look
count, as the numeric coercion admits. -/
def negRowT : Row :=
  { agent := "N", week := "Total", firstQuotes := 60, secondQuotes := 30,
    submitted := 10, freeLook := -1, smokerPct := 0, preferredPct := 40,
    standardPct := 30, gradedPct := 0, giPct := 10, ccPct := 0 }

/-- A weekly row of the same agent. -/
def negRowW (wk : String) : Row :=
  { agent := "N", week := wk, firstQuotes := 30, secondQuotes := 15,
    submitted := 5, freeLook := 0, smokerPct := 0, preferredPct := 40,
    standardPct := 30, gradedPct := 0, giPct := 10, ccPct := 0 }

/-- A table whose one qualifying agent has a negative free-look count. -/
def negDemo : List Row := [negRowT, negRowW "W1", negRowW "W2"]

/-- C4 (counterexample): a qualifying record whose free-look count is -1
(the coercion keeps negative inputs) gets free_look_rate = -10, outside
the claimed range [0, ∞). -/
theorem c4_counterexample :
    mkFullRecord negRowT 2 ∈ processAgentData negDemo ∧
    (mkFullRecord negRowT 2).freeLookRate = -10 ∧
    ¬ (0 : ℚ) ≤ (mkFullRecord negRowT 2).freeLookRate := by
  have hw : weeksActiveOf (individualOf negDemo) negRowT.agent = 2 := by decide
  have hflr : (mkFullRecord negRowT 2).freeLookRate = -10 := by
    norm_num [mkFullRecord, guardedRate, negRowT]
  refine ⟨?_, hflr, ?_⟩
  · apply (mem_processAgentData _ _).mpr
    exact ⟨negRowT, by decide, by rw [hw]⟩
  · rw [hflr]
    norm_num

/-- C4 (amended): for every record of the full-period pipeline whose
second-quote and free-look inputs are nonnegative, the five derived rates
are nonnegative; each guarded rate is exactly 0 when its denominator is 0;
and the unguarded average-weekly division is safe because every qualifying
record has at least 2 active weeks. -/
theorem c4_metrics (df : List Row) (fr : FullRecord)
    (hmem : fr ∈ processAgentData df)
    (h2 : 0 ≤ fr.secondQuotes) (hf : 0 ≤ fr.freeLook) :
    0 ≤ fr.conversionRate ∧ 0 ≤ fr.quoteProgressionRate ∧
    0 ≤ fr.overallConversionRate ∧ 0 ≤ fr.freeLookRate ∧
    0 ≤ fr.avgWeeklySubmissions ∧
    (fr.secondQuotes = 0 → fr.conversionRate = 0) ∧
    (fr.firstQuotes = 0 → fr.quoteProgressionRate = 0 ∧
      fr.overallConversionRate = 0) ∧
    (fr.submitted = 0 → fr.freeLookRate = 0) ∧
    2 ≤ fr.weeksActive := by
  obtain ⟨r, hr, rfl⟩ := (mem_processAgentData df fr).mp hmem
  simp only [qualifiedRows, qualifiedRowsWith, totalOf, List.mem_filter,
    decide_eq_true_eq] at hr
  have hsub : (0 : ℚ) ≤ r.submitted := le_trans (by norm_num) hr.1.2.2
  simp only [mkFullRecord] at h2 hf ⊢
  refine ⟨guardedRate_nonneg _ _ hsub, guardedRate_nonneg _ _ h2,
    guardedRate_nonneg _ _ hsub, guardedRate_nonneg _ _ hf,
    div_nonneg hsub (Nat.cast_nonneg _), ?_, ?_, ?_, hr.2⟩
  · intro h0; simp [guardedRate, h0]
  · intro h0; constructor <;> simp [guardedRate, h0]
  · intro h0; simp [guardedRate, h0]

/-- C4 (witness): the amended statement instantiated at the concrete
qualifying record of the demo table. -/
theorem c4_metrics_witness :
    0 ≤ (mkFullRecord qRowT 2).conversionRate ∧
    0 ≤ (mkFullRecord qRowT 2).quoteProgressionRate ∧
    0 ≤ (mkFullRecord qRowT 2).overallConversionRate ∧
    0 ≤ (mkFullRecord qRowT 2).freeLookRate ∧
    0 ≤ (mkFullRecord qRowT 2).avgWeeklySubmissions ∧
    ((mkFullRecord qRowT 2).secondQuotes = 0 →
      (mkFullRecord qRowT 2).conversionRate = 0) ∧
    ((mkFullRecord qRowT 2).firstQuotes = 0 →
      (mkFullRecord qRowT 2).quoteProgressionRate = 0 ∧
      (mkFullRecord qRowT 2).overallConversionRate = 0) ∧
    ((mkFullRecord qRowT 2).submitted = 0 →
      (mkFullRecord qRowT 2).freeLookRate = 0) ∧
    2 ≤ (mkFullRecord qRowT 2).weeksActive := by
  have hmem : mkFullRecord qRowT 2 ∈ processAgentData qDemo := by
    have h : processAgentData qDemo = [mkFullRecord qRowT 2] := rfl
    rw [h]
    exact List.mem_singleton.mpr rfl
  exact c4_metrics qDemo (mkFullRecord qRowT 2) hmem (by decide) (by decide)

/-- The worked example of the spec: first_quotes 100, second_quotes 50,
submitted 30, free_look 3, preferred 50, standard 20, GI 10, graded 5. -/
def exampleRow : Row :=
  { agent := "E", week := "Total", firstQuotes := 100, secondQuotes := 50,
    submitted := 30, freeLook := 3, smokerPct := 0, preferredPct := 50,
    standardPct := 20, gradedPct := 5, giPct := 10, ccPct := 0 }

/-- C5 (counterexample): on the worked example the code yields quality tier
Excellent (preferred 50 lies in the top bin), not Good, and risk score 2,
not 3 — at free-look rate exactly 10 the elevated band does not fire. -/
theorem c5_counterexample :
    (mkFullRecord exampleRow 4).qualityTier = some QualityTier.Excellent ∧
    some QualityTier.Excellent ≠ some QualityTier.Good ∧
    (calculateRiskScore (mkFullRecord exampleRow 4).toAgentRow).1 = 2 ∧
    (2 : ℕ) ≠ 3 := by
  refine ⟨by decide, by decide, ?_, by decide⟩
  norm_num [calculateRiskScore, severityOf, FullRecord.toAgentRow,
    mkFullRecord, guardedRate, qualityScoreOf, exampleRow]

/-- C5 (amended): the worked example yields conversion 60, progression 50,
free-look rate 10, quality score 38, average weekly submissions 7.5,
quality tier Excellent, risk profile Low Risk, and risk score 2 with only
the quality-score rule firing, severity Low. -/
theorem c5_example :
    (mkFullRecord exampleRow 4).conversionRate = 60 ∧
    (mkFullRecord exampleRow 4).quoteProgressionRate = 50 ∧
    (mkFullRecord exampleRow 4).freeLookRate = 10 ∧
    (mkFullRecord exampleRow 4).qualityScore = 38 ∧
    (mkFullRecord exampleRow 4).avgWeeklySubmissions = 7.5 ∧
    (mkFullRecord exampleRow 4).qualityTier = some QualityTier.Excellent ∧
    (mkFullRecord exampleRow 4).riskProfile = some RiskProfile.LowRisk ∧
    (calculateRiskScore (mkFullRecord exampleRow 4).toAgentRow).1 = 2 ∧
    (calculateRiskScore (mkFullRecord exampleRow 4).toAgentRow).2.1 =
      Severity.Low ∧
    (calculateRiskScore (mkFullRecord exampleRow 4).toAgentRow).2.2 =
      [RiskIssue.poorQuality] := by
  refine ⟨?_, ?_, ?_, ?_, ?_, by decide, by decide, ?_, ?_, ?_⟩ <;>
    norm_num [calculateRiskScore, severityOf, FullRecord.toAgentRow,
      mkFullRecord, guardedRate, qualityScoreOf, exampleRow]

/-- The submission-weighted average exactly as the spec words it, with no
guard: dot product of weekly values and submitted counts over the total
submitted count. Written from the spec for comparison with `wavgBy`, which
is written from the code. -/
def specWeightedAvg (rows : List Row) (f : Row → ℚ) : ℚ :=
  (rows.map (fun r => r.submitted * f r)).sum /
    (rows.map (fun r => r.submitted)).sum

/-- A weekly row with a negative submitted count, as the coercion admits. -/
def nwRow : Row :=
  { agent := "N", week := "W1", firstQuotes := 10, secondQuotes := 5,
    submitted := -5, freeLook := 0, smokerPct := 0, preferredPct := 10,
    standardPct := 0, gradedPct := 0, giPct := 0, ccPct := 0 }

/-- C7 (counterexample): with a negative submitted count the total weight
in range is -5, which is not 0, yet the re-aggregator returns 0 while the
submission-weighted average is 10 — the recomputed value is not the
weighted average there. -/
theorem c7_counterexample :
    (reaggRecordOf [nwRow] "N").preferredPct = 0 ∧
    specWeightedAvg ([nwRow].filter (fun q => q.agent = "N"))
      (fun r => r.preferredPct) = 10 ∧
    (([nwRow].filter (fun q => q.agent = "N")).map
      (fun r => r.submitted)).sum = -5 ∧
    (0 : ℚ) ≠ 10 := by
  refine ⟨?_, ?_, ?_, by norm_num⟩ <;>
    norm_num [reaggRecordOf, wavgBy, specWeightedAvg, nwRow]

/-- C7 (amended): when the weekly submitted counts of the agent in range
are nonnegative, the total weight is either 0 or positive; each of the six
recomputed percentage fields equals the submission-weighted average when
the total is positive and is exactly 0 when the total is 0. -/
theorem c7_weighted_avg (filtered : List Row) (a : String)
    (h : ∀ r ∈ filtered.filter (fun q => q.agent = a), 0 ≤ r.submitted) :
    ((((filtered.filter (fun q => q.agent = a)).map
        (fun r => r.submitted)).sum = 0 →
      (reaggRecordOf filtered a).smokerPct = 0 ∧
      (reaggRecordOf filtered a).preferredPct = 0 ∧
      (reaggRecordOf filtered a).standardPct = 0 ∧
      (reaggRecordOf filtered a).gradedPct = 0 ∧
      (reaggRecordOf filtered a).giPct = 0 ∧
      (reaggRecordOf filtered a).ccPct = 0) ∧
     (0 < (((filtered.filter (fun q => q.agent = a)).map
        (fun r => r.submitted)).sum) →
      (reaggRecordOf filtered a).smokerPct =
        specWeightedAvg (filtered.filter (fun q => q.agent = a))
          (fun r => r.smokerPct) ∧
      (reaggRecordOf filtered a).preferredPct =
        specWeightedAvg (filtered.filter (fun q => q.agent = a))
          (fun r => r.preferredPct) ∧
      (reaggRecordOf filtered a).standardPct =
        specWeightedAvg (filtered.filter (fun q => q.agent = a))
          (fun r => r.standardPct) ∧
      (reaggRecordOf filtered a).gradedPct =
        specWeightedAvg (filtered.filter (fun q => q.agent = a))
          (fun r => r.gradedPct) ∧
      (reaggRecordOf filtered a).giPct =
        specWeightedAvg (filtered.filter (fun q => q.agent = a))
          (fun r => r.giPct) ∧
      (reaggRecordOf filtered a).ccPct =
        specWeightedAvg (filtered.filter (fun q => q.agent = a))
          (fun r => r.ccPct)) ∧
     ((((filtered.filter (fun q => q.agent = a)).map
        (fun r => r.submitted)).sum = 0) ∨
      0 < (((filtered.filter (fun q => q.agent = a)).map
        (fun r => r.submitted)).sum))) := by
  have hnn : 0 ≤ (((filtered.filter (fun q => q.agent = a)).map
      (fun r => r.submitted)).sum) := by
    apply List.sum_nonneg
    intro x hx
    obtain ⟨r, hr, rfl⟩ := List.mem_map.mp hx
    exact h r hr
  refine ⟨?_, ?_, ?_⟩
  · intro h0
    simp only [reaggRecordOf, wavgBy]
    rw [h0]
    norm_num
  · intro hpos
    simp only [reaggRecordOf, wavgBy, specWeightedAvg]
    simp [if_pos hpos]
  · rcases eq_or_lt_of_le hnn with h0 | h0
    · exact Or.inl h0.symm
    · exact Or.inr h0

/-- C7 (witness): the positive-weight case of the amended statement at the
concrete two-week table, where every percentage equals its weighted
average. -/
theorem c7_weighted_avg_witness :
    (reaggRecordOf [qRowW "W1", qRowW "W2"] "Q").smokerPct =
      specWeightedAvg ([qRowW "W1", qRowW "W2"].filter (fun q => q.agent = "Q"))
        (fun r => r.smokerPct) ∧
    (reaggRecordOf [qRowW "W1", qRowW "W2"] "Q").preferredPct =
      specWeightedAvg ([qRowW "W1", qRowW "W2"].filter (fun q => q.agent = "Q"))
        (fun r => r.preferredPct) ∧
    (reaggRecordOf [qRowW "W1", qRowW "W2"] "Q").standardPct =
      specWeightedAvg ([qRowW "W1", qRowW "W2"].filter (fun q => q.agent = "Q"))
        (fun r => r.standardPct) ∧
    (reaggRecordOf [qRowW "W1", qRowW "W2"] "Q").gradedPct =
      specWeightedAvg ([qRowW "W1", qRowW "W2"].filter (fun q => q.agent = "Q"))
        (fun r => r.gradedPct) ∧
    (reaggRecordOf [qRowW "W1", qRowW "W2"] "Q").giPct =
      specWeightedAvg ([qRowW "W1", qRowW "W2"].filter (fun q => q.agent = "Q"))
        (fun r => r.giPct) ∧
    (reaggRecordOf [qRowW "W1", qRowW "W2"] "Q").ccPct =
      specWeightedAvg ([qRowW "W1", qRowW "W2"].filter (fun q => q.agent = "Q"))
        (fun r => r.ccPct) :=
  (c7_weighted_avg [qRowW "W1", qRowW "W2"] "Q" (by decide)).2.1
    (by norm_num [qRowW])

/-- A weekly row used for the four-week threshold table. -/
def wkRow (wk : String) : Row :=
  { agent := "W", week := wk, firstQuotes := 10, secondQuotes := 5,
    submitted := 5, freeLook := 0, smokerPct := 0, preferredPct := 30,
    standardPct := 30, gradedPct := 0, giPct := 10, ccPct := 0 }

/-- An individual table spanning four distinct weeks. -/
def weeks4Demo : List Row := [wkRow "W1", wkRow "W2", wkRow "W3", wkRow "W4"]

/-- C9 (counterexample): for a 3-of-4-week range the code's integer
division gives threshold max(5, 30 div 4) = 7, while the proportional
formula with exact division gives max(5, 7.5) = 7.5 — the threshold does
not scale proportionally. -/
theorem c9_counterexample :
    minSubFiltered weeks4Demo ["W1", "W2", "W3"] = 7 ∧
    ((minSubFiltered weeks4Demo ["W1", "W2", "W3"] : ℚ)) ≠
      max 5 ((10 * 3 : ℚ) / 4) := by
  have h : minSubFiltered weeks4Demo ["W1", "W2", "W3"] = 7 := by decide
  refine ⟨h, ?_⟩
  rw [h]
  norm_num

/-- C9 (amended): the requalification threshold is
max(5, 10 * weeks_in_range div total_weeks) with integer floor division,
and a record appears in the re-aggregated output exactly when it is one of
the per-agent records, its submitted sum meets that threshold, and it has
at least one active week. -/
theorem c9_threshold (ind : List Row) (sel : List String) (rec : ReaggRecord) :
    minSubFiltered ind sel =
      max 5 (10 * weeksInRangeOf ind sel / totalWeeksOf ind) ∧
    (rec ∈ reaggregate ind sel ↔
      rec ∈ ((ind.filter (fun r => r.week ∈ sel)).map
          (fun r => r.agent)).dedup.map
          (reaggRecordOf (ind.filter (fun r => r.week ∈ sel))) ∧
      ((max 5 (10 * weeksInRangeOf ind sel / totalWeeksOf ind) : ℕ) : ℚ) ≤
        rec.submitted ∧
      1 ≤ rec.weeksActive) := by
  refine ⟨rfl, ?_⟩
  simp only [reaggregate, List.mem_filter, decide_eq_true_eq, minSubFiltered]

lemma filter_week_mem_self (l : List Row) (sel : List String)
    (h : ∀ r ∈ l, r.week ∈ sel) :
    l.filter (fun r => r.week ∈ sel) = l := by
  apply List.filter_eq_self.mpr
  intro a ha
  simpa using h a ha

/-- C6 (counterexample): on a one-agent, one-week table whose totals row
has 40 first quotes, the full-period pipeline outputs no record, but the
re-aggregator over the sub-range equal to the entire period outputs one —
the sub-range result does not reduce to the full-period result (the
re-aggregated qualification has no first-quote threshold and accepts one
active week, and its records carry no risk profile at all). -/
theorem c6_counterexample :
    (processAgentData [rT6, rW6]).map (fun r => r.agent) = [] ∧
    (reaggregate [rW6] ["W1"]).map (fun r => r.agent) = ["A"] := by
  constructor
  · decide
  · norm_num [reaggregate, reaggRecordOf, minSubFiltered, weeksInRangeOf,
      totalWeeksOf, wavgBy, guardedRate, qualityScoreOf, qualityTierOf, rW6,
      List.dedup]

/-- C6 (amended): the re-aggregated records omit Risk_Profile,
Quote_Progression_Rate and Overall_Conversion_Rate, and re-aggregation
over the whole period need not equal the full-period output; but for any
agent whose totals row equals its weekly sums with submission-weighted
percentages, the full-period record and the whole-period re-aggregated
record agree on every field the two record shapes share. -/
theorem c6_agree (ind : List Row) (sel : List String) (rT : Row)
    (hsel : ∀ r ∈ ind, r.week ∈ sel)
    (h1 : rT.firstQuotes = ((ind.filter (fun q => q.agent = rT.agent)).map
      (fun r => r.firstQuotes)).sum)
    (h2 : rT.secondQuotes = ((ind.filter (fun q => q.agent = rT.agent)).map
      (fun r => r.secondQuotes)).sum)
    (h3 : rT.submitted = ((ind.filter (fun q => q.agent = rT.agent)).map
      (fun r => r.submitted)).sum)
    (h4 : rT.freeLook = ((ind.filter (fun q => q.agent = rT.agent)).map
      (fun r => r.freeLook)).sum)
    (h5 : rT.smokerPct = wavgBy (ind.filter (fun q => q.agent = rT.agent))
      (fun r => r.smokerPct))
    (h6 : rT.preferredPct = wavgBy (ind.filter (fun q => q.agent = rT.agent))
      (fun r => r.preferredPct))
    (h7 : rT.standardPct = wavgBy (ind.filter (fun q => q.agent = rT.agent))
      (fun r => r.standardPct))
    (h8 : rT.gradedPct = wavgBy (ind.filter (fun q => q.agent = rT.agent))
      (fun r => r.gradedPct))
    (h9 : rT.giPct = wavgBy (ind.filter (fun q => q.agent = rT.agent))
      (fun r => r.giPct))
    (h10 : rT.ccPct = wavgBy (ind.filter (fun q => q.agent = rT.agent))
      (fun r => r.ccPct)) :
    (mkFullRecord rT (weeksActiveOf ind rT.agent)).agent =
      (reaggRecordOf (ind.filter (fun r => r.week ∈ sel)) rT.agent).agent ∧
    (mkFullRecord rT (weeksActiveOf ind rT.agent)).firstQuotes =
      (reaggRecordOf (ind.filter (fun r => r.week ∈ sel)) rT.agent).firstQuotes ∧
    (mkFullRecord rT (weeksActiveOf ind rT.agent)).secondQuotes =
      (reaggRecordOf (ind.filter (fun r => r.week ∈ sel)) rT.agent).secondQuotes ∧
    (mkFullRecord rT (weeksActiveOf ind rT.agent)).submitted =
      (reaggRecordOf (ind.filter (fun r => r.week ∈ sel)) rT.agent).submitted ∧
    (mkFullRecord rT (weeksActiveOf ind rT.agent)).freeLook =
      (reaggRecordOf (ind.filter (fun r => r.week ∈ sel)) rT.agent).freeLook ∧
    (mkFullRecord rT (weeksActiveOf ind rT.agent)).smokerPct =
      (reaggRecordOf (ind.filter (fun r => r.week ∈ sel)) rT.agent).smokerPct ∧
    (mkFullRecord rT (weeksActiveOf ind rT.agent)).preferredPct =
      (reaggRecordOf (ind.filter (fun r => r.week ∈ sel)) rT.agent).preferredPct ∧
    (mkFullRecord rT (weeksActiveOf ind rT.agent)).standardPct =
      (reaggRecordOf (ind.filter (fun r => r.week ∈ sel)) rT.agent).standardPct ∧
    (mkFullRecord rT (weeksActiveOf ind rT.agent)).gradedPct =
      (reaggRecordOf (ind.filter (fun r => r.week ∈ sel)) rT.agent).gradedPct ∧
    (mkFullRecord rT (weeksActiveOf ind rT.agent)).giPct =
      (reaggRecordOf (ind.filter (fun r => r.week ∈ sel)) rT.agent).giPct ∧
    (mkFullRecord rT (weeksActiveOf ind rT.agent)).ccPct =
      (reaggRecordOf (ind.filter (fun r => r.week ∈ sel)) rT.agent).ccPct ∧
    (mkFullRecord rT (weeksActiveOf ind rT.agent)).conversionRate =
      (reaggRecordOf (ind.filter (fun r => r.week ∈ sel)) rT.agent).conversionRate ∧
    (mkFullRecord rT (weeksActiveOf ind rT.agent)).freeLookRate =
      (reaggRecordOf (ind.filter (fun r => r.week ∈ sel)) rT.agent).freeLookRate ∧
    (mkFullRecord rT (weeksActiveOf ind rT.agent)).qualityScore =
      (reaggRecordOf (ind.filter (fun r => r.week ∈ sel)) rT.agent).qualityScore ∧
    (mkFullRecord rT (weeksActiveOf ind rT.agent)).weeksActive =
      (reaggRecordOf (ind.filter (fun r => r.week ∈ sel)) rT.agent).weeksActive ∧
    (mkFullRecord rT (weeksActiveOf ind rT.agent)).avgWeeklySubmissions =
      (reaggRecordOf (ind.filter (fun r => r.week ∈ sel)) rT.agent).avgWeeklySubmissions ∧
    (mkFullRecord rT (weeksActiveOf ind rT.agent)).qualityTier =
      (reaggRecordOf (ind.filter (fun r => r.week ∈ sel)) rT.agent).qualityTier := by
  rw [filter_week_mem_self ind sel hsel]
  simp only [mkFullRecord, reaggRecordOf, weeksActiveOf]
  refine ⟨trivial, h1, h2, h3, h4, h5, h6, h7, h8, h9, h10, ?_, ?_, ?_, trivial,
    ?_, ?_⟩
  · rw [h3, h2]
  · rw [h4, h3]
  · rw [h6, h7]
  · rw [h3]
  · rw [h6]

/-- C6 (witness): the agreement instantiated at a concrete consistent
table, shown on the conversion rate, quality score and quality tier. -/
theorem c6_agree_witness :
    (mkFullRecord qRowT
        (weeksActiveOf [qRowW "W1", qRowW "W2"] qRowT.agent)).conversionRate =
      (reaggRecordOf ([qRowW "W1", qRowW "W2"].filter
        (fun r => r.week ∈ ["W1", "W2"])) qRowT.agent).conversionRate ∧
    (mkFullRecord qRowT
        (weeksActiveOf [qRowW "W1", qRowW "W2"] qRowT.agent)).qualityScore =
      (reaggRecordOf ([qRowW "W1", qRowW "W2"].filter
        (fun r => r.week ∈ ["W1", "W2"])) qRowT.agent).qualityScore ∧
    (mkFullRecord qRowT
        (weeksActiveOf [qRowW "W1", qRowW "W2"] qRowT.agent)).qualityTier =
      (reaggRecordOf ([qRowW "W1", qRowW "W2"].filter
        (fun r => r.week ∈ ["W1", "W2"])) qRowT.agent).qualityTier := by
  have H := c6_agree [qRowW "W1", qRowW "W2"] ["W1", "W2"] qRowT
    (by decide)
    (by norm_num [qRowT, qRowW])
    (by norm_num [qRowT, qRowW])
    (by norm_num [qRowT, qRowW])
    (by norm_num [qRowT, qRowW])
    (by norm_num [qRowT, qRowW, wavgBy])
    (by norm_num [qRowT, qRowW, wavgBy])
    (by norm_num [qRowT, qRowW, wavgBy])
    (by norm_num [qRowT, qRowW, wavgBy])
    (by norm_num [qRowT, qRowW, wavgBy])
    (by norm_num [qRowT, qRowW, wavgBy])
  obtain ⟨-, -, -, -, -, -, -, -, -, -, -, hconv, -, hqs, -, -, htier⟩ := H
  exact ⟨hconv, hqs, htier⟩

end AgentSummary
